import Mathlib

/-!
Shallow embedding of the data-invocation layer of the repository
(`src/packages/remix-server-runtime/data.ts`) together with a spec-modelled
state machine for the abort/timeout governor of the streaming response
assembler, whose implementation is not among the provided source files.

Requests, responses and headers are modelled structurally: a header map is a
list of name/value pairs looked up case-insensitively (as the web platform
does), a URL is an origin, a pathname and an ordered list of query
parameters, and a request carries a method, a URL, headers and a body.
-/

/-- Header names are compared case-insensitively, as in the Fetch standard
(lower-casing is applied character by character). -/
def headerNameMatches (a b : String) : Bool :=
  a.data.map Char.toLower == b.data.map Char.toLower

/-- A header map: ordered name/value pairs with case-insensitive lookup. -/
structure HeadersMap where
  entries : List (String × String)
deriving DecidableEq

/-- `headers.get(name)`: the value of the first matching entry, if any. -/
def HeadersMap.get (h : HeadersMap) (name : String) : Option String :=
  (h.entries.find? (fun e => headerNameMatches e.1 name)).map (fun e => e.2)

/-- `headers.set(name, value)`: drop every entry with the given name and
record the new value. Lookup behaviour agrees with the platform `set`. -/
def HeadersMap.set (h : HeadersMap) (name value : String) : HeadersMap :=
  ⟨h.entries.filter (fun e => !headerNameMatches e.1 name) ++ [(name, value)]⟩

/-- A structural web `Response`: status, status text, headers and a body
(the body stands for the serialized payload). -/
structure Response where
  status : Nat
  statusText : String
  headers : HeadersMap
  body : String
deriving DecidableEq

/-- Serialized application data returned by a loader or action (the
`AppData` type of the source is `any`; the model keeps its serialized form). -/
abbrev AppData := String

/-- Modelled from the spec: `isRedirectResponse` from the missing
`responses.ts` module — a response is a redirect when it carries one of the
HTTP redirect status codes. -/
def isRedirectResponse (r : Response) : Bool :=
  r.status == 301 || r.status == 302 || r.status == 303 ||
    r.status == 307 || r.status == 308

/-- Modelled from the spec: `json` from the missing `responses.ts` module —
wraps serializable data in a 200 response whose content type is JSON. -/
def json (d : AppData) : Response :=
  ⟨200, "OK", ⟨[("Content-Type", "application/json; charset=utf-8")]⟩, d⟩

/-- A URL: origin, pathname, and the ordered query parameter list
(`URLSearchParams` preserves insertion order; names are case-sensitive). -/
structure Url where
  origin : String
  pathname : String
  searchParams : List (String × String)
deriving DecidableEq

/-- A structural web `Request`. `new Request(url.href, request)` is modelled
by replacing the `url` field and keeping method, headers and body. -/
structure Request where
  method : String
  url : Url
  headers : HeadersMap
  body : String
deriving DecidableEq

/-- `stripIndexParam` from `data.ts`: read all `index` values, delete the
`index` key, then append back exactly the truthy (non-empty) values. -/
def stripIndexParam (request : Request) : Request :=
  let url := request.url
  let indexValues := (url.searchParams.filter (fun p => p.1 == "index")).map (fun p => p.2)
  let withoutIndex := url.searchParams.filter (fun p => !(p.1 == "index"))
  let indexValuesToKeep := indexValues.filter (fun v => !(v == ""))
  let newParams := withoutIndex ++ indexValuesToKeep.map (fun v => (("index" : String), v))
  { request with url := { url with searchParams := newParams } }

/-- `stripDataParam` from `data.ts`: delete every `_data` query parameter. -/
def stripDataParam (request : Request) : Request :=
  { request with
      url := { request.url with
        searchParams := request.url.searchParams.filter (fun p => !(p.1 == "_data")) } }

/-- Route path parameters. -/
abbrev Params := List (String × String)

/-- The opaque `AppLoadContext` supplied by the host server. -/
structure AppLoadContext where
  fields : List (String × String)
deriving DecidableEq

/-- The argument object handed to a loader or action. -/
structure DataFunctionArgs where
  request : Request
  context : AppLoadContext
  params : Params
deriving DecidableEq

/-- What a loader or action can resolve to: `undefined`, a `Response`, or
plain data. -/
inductive DataFunctionResult where
  | undefinedValue
  | response (r : Response)
  | data (d : AppData)
deriving DecidableEq

/-- Modelled from the spec: the `ErrorResponse` class of the missing
`router` module, as constructed in `data.ts`: a status, a status text, the
message of the wrapped `Error`, and the `internal` flag. -/
structure ErrorResponse where
  status : Nat
  statusText : String
  errorMessage : String
  internal : Bool
deriving DecidableEq

/-- A value thrown by a handler or by the invocation layer: a structural
`Response` (the only shape `isResponse` accepts), an `ErrorResponse`, or an
ordinary `Error` carrying a message. -/
inductive Thrown where
  | response (r : Response)
  | errorResponse (e : ErrorResponse)
  | jsError (message : String)
deriving DecidableEq

/-- An action: from the argument object to either a thrown value or a
resolved result. -/
abbrev ActionFunction := DataFunctionArgs → Except Thrown DataFunctionResult

/-- A loader has the same shape as an action. -/
abbrev LoaderFunction := ActionFunction

/-- The argument object built at every call site of `data.ts`:
`{ request: stripDataParam(stripIndexParam(request)), context, params }`. -/
def dataFunctionArgs (request : Request) (loadContext : AppLoadContext)
    (params : Params) : DataFunctionArgs :=
  ⟨stripDataParam (stripIndexParam request), loadContext, params⟩

/-- The 405 message of `callRouteAction` when no action is provided. -/
def methodNotAllowedActionMsg (method pathname routeId : String) : String :=
  "You made a " ++ method ++ " request to \"" ++ pathname ++
    "\" but did not provide " ++ "an `" ++ "action" ++ "` for route \"" ++ routeId ++
    "\", so there is no way to handle the request."

/-- The 405 message of `callRouteLoader` when no loader is provided. -/
def methodNotAllowedLoaderMsg (method pathname routeId : String) : String :=
  "You made a " ++ method ++ " request to \"" ++ pathname ++
    "\" but did not provide " ++ "a `" ++ "loader" ++ "` for route \"" ++ routeId ++
    "\", so there is no way to handle the request."

/-- The error message raised when an action resolves to `undefined`. -/
def undefinedActionMsg (routeId : String) : String :=
  "You defined an " ++ "action" ++ " for route \"" ++ routeId ++
    "\" but didn\x27t return " ++ "anything from your `" ++ "action" ++
    "` function. Please return a value or `null`."

/-- The error message raised when a loader resolves to `undefined`. -/
def undefinedLoaderMsg (routeId : String) : String :=
  "You defined a " ++ "loader" ++ " for route \"" ++ routeId ++
    "\" but didn\x27t return " ++ "anything from your `" ++ "loader" ++
    "` function. Please return a value or `null`."

/-- Tag a response with the diagnostic marker header, as
`error.headers.set("X-Remix-Catch", "yes")` does. -/
def tagResponse (r : Response) : Response :=
  { r with headers := r.headers.set "X-Remix-Catch" "yes" }

/-- The catch block shared by `callRouteAction` and `callRouteLoader`: a
thrown non-response propagates; a thrown redirect response becomes the
result; any other thrown response is tagged and then re-thrown in router
mode or made the result in legacy mode. -/
def catchResponseShim (isRemixRouterRequest : Bool)
    (step : Except Thrown DataFunctionResult) : Except Thrown DataFunctionResult :=
  match step with
  | .ok r => .ok r
  | .error (.response err) =>
    if isRedirectResponse err then
      .ok (.response err)
    else if isRemixRouterRequest then
      .error (.response (tagResponse err))
    else
      .ok (.response (tagResponse err))
  | .error e => .error e

/-- The tail shared by all four call functions: reject `undefined` with the
given configuration error, pass responses through, and JSON-wrap data. -/
def finalizeResult (undefinedMsg : String)
    (step : Except Thrown DataFunctionResult) : Except Thrown Response :=
  match step with
  | .error e => .error e
  | .ok .undefinedValue => .error (.jsError undefinedMsg)
  | .ok (.response r) => .ok r
  | .ok (.data d) => .ok (json d)

/-- `callRouteAction` from `data.ts`. -/
def callRouteAction (routeId : String) (action : Option ActionFunction)
    (params : Params) (loadContext : AppLoadContext) (request : Request)
    (isRemixRouterRequest : Bool) : Except Thrown Response :=
  match action with
  | none =>
    .error (.errorResponse ⟨405, "Method Not Allowed",
      methodNotAllowedActionMsg request.method request.url.pathname routeId, true⟩)
  | some action =>
    finalizeResult (undefinedActionMsg routeId)
      (catchResponseShim isRemixRouterRequest
        (action (dataFunctionArgs request loadContext params)))

/-- `callRouteLoader` from `data.ts`. -/
def callRouteLoader (routeId : String) (loader : Option LoaderFunction)
    (params : Params) (loadContext : AppLoadContext) (request : Request)
    (isRemixRouterRequest : Bool) : Except Thrown Response :=
  match loader with
  | none =>
    .error (.errorResponse ⟨405, "Method Not Allowed",
      methodNotAllowedLoaderMsg request.method request.url.pathname routeId, true⟩)
  | some loader =>
    finalizeResult (undefinedLoaderMsg routeId)
      (catchResponseShim isRemixRouterRequest
        (loader (dataFunctionArgs request loadContext params)))

/-- `callRouteActionRR` from `data.ts`: no catch block at all. -/
def callRouteActionRR (routeId : String) (action : ActionFunction)
    (params : Params) (loadContext : AppLoadContext) (request : Request) :
    Except Thrown Response :=
  finalizeResult (undefinedActionMsg routeId)
    (action (dataFunctionArgs request loadContext params))

/-- `callRouteLoaderRR` from `data.ts`: no catch block at all. -/
def callRouteLoaderRR (routeId : String) (loader : LoaderFunction)
    (params : Params) (loadContext : AppLoadContext) (request : Request) :
    Except Thrown Response :=
  finalizeResult (undefinedLoaderMsg routeId)
    (loader (dataFunctionArgs request loadContext params))

/-- A word character in the sense of the regex metacharacter for word
boundaries: ASCII letters, digits, underscore. -/
def isWordChar (c : Char) : Bool :=
  c.isAlphanum || c == '_'

/-- Match a literal token against the start of a character list, returning
the remainder on success. -/
def charsMatchAt : List Char → List Char → Option (List Char)
  | [], rest => some rest
  | _ :: _, [] => none
  | t :: ts, c :: cs => if t == c then charsMatchAt ts cs else none

/-- A word boundary holds before the match when there is no previous
character or the previous character is not a word character. -/
def boundaryBefore : Option Char → Bool
  | none => true
  | some c => !isWordChar c

/-- A word boundary holds after the match when the remainder is empty or
starts with a non-word character. -/
def boundaryAfterOk : List Char → Bool
  | [] => true
  | c :: _ => !isWordChar c

/-- Does the token match at this exact position, with word boundaries on
both sides? -/
def matchHere (tok : List Char) (prev : Option Char) (s : List Char) : Bool :=
  boundaryBefore prev &&
    match charsMatchAt tok s with
    | some rest => boundaryAfterOk rest
    | none => false

/-- Scan the character list for a boundary-delimited occurrence of the
token, tracking the previous character. -/
def testFrom (tok : List Char) : Option Char → List Char → Bool
  | prev, [] => matchHere tok prev []
  | prev, c :: cs => matchHere tok prev (c :: cs) || testFrom tok (some c) cs

/-- The regex test of `extractData`: a word-boundary-delimited occurrence of
`application/json` in the content type string. -/
def containsJsonToken (s : String) : Bool :=
  testFrom "application/json".toList none s.toList

/-- The observable outcome of `extractData`: hand the body to the JSON
parser (`response.json()`) or return it as raw text (`response.text()`). -/
inductive ExtractedData where
  | jsonBody (raw : String)
  | textBody (raw : String)
deriving DecidableEq

/-- `extractData` from `data.ts`: parse as JSON exactly when the
`Content-Type` header is present, truthy and passes the regex test. -/
def extractData (response : Response) : ExtractedData :=
  match response.headers.get "Content-Type" with
  | some contentType =>
    if !(contentType == "") && containsJsonToken contentType then
      ExtractedData.jsonBody response.body
    else
      ExtractedData.textBody response.body
  | none => ExtractedData.textBody response.body

/-- `needle` occurs as a contiguous substring of `hay`. -/
def occursIn (needle hay : String) : Prop :=
  ∃ pre post, hay = pre ++ needle ++ post

/-!
Spec-modelled streaming assembler and abort/timeout governor.

The implementation of the streaming response assembler and of the
abort/timeout governor is not among the provided source files (only its
callers and end-to-end tests are). The following state machine is modelled
from the spec: phases `Building → ShellReady → Streaming → Completed`, a
pending set of field paths, emitted chunks, and a governor that on expiry of
the configured delay force-settles every still-pending field as rejected
with the distinguished `Aborted` error and closes the transport.
-/

/-- The error carried by a rejected chunk: an application error or the
distinguished abort error. -/
inductive ChunkErr where
  | appError (message : String)
  | aborted
deriving DecidableEq

/-- A stream chunk, discriminated by kind. -/
inductive Chunk where
  | initialShell
  | resolvedValue (fieldPath : String) (value : String)
  | rejectedValue (fieldPath : String) (err : ChunkErr)
deriving DecidableEq

/-- The phases of the streaming response assembler. -/
inductive StreamPhase where
  | building
  | shellReady
  | streaming
  | completed
deriving DecidableEq

/-- Modelled from the spec: the per-request state of the missing streaming
response assembler — current phase, still-pending field paths, chunks
emitted so far, and whether the transport has been closed. -/
structure Assembler where
  phase : StreamPhase
  pending : List String
  chunks : List Chunk
  transportClosed : Bool
deriving DecidableEq

/-- An event consumed by the assembler: settlement of a deferred field, or
the passage of time observed by the governor. -/
inductive StreamEvent where
  | settleResolved (fieldPath value : String)
  | settleRejected (fieldPath message : String)
  | clockAdvance (ticks : Nat)
deriving DecidableEq

/-- Modelled from the spec: the governor-visible run state — the configured
abort delay, the time elapsed since streaming began, and the assembler. -/
structure StreamRun where
  delay : Nat
  elapsed : Nat
  asm : Assembler
deriving DecidableEq

/-- Natural settlement of one field: emit its chunk once, remove it from the
pending set, and complete and close when nothing remains pending. A second
settlement of the same field is a no-op (a promise settles once). -/
def settleField (a : Assembler) (fieldPath : String) (c : Chunk) : Assembler :=
  if a.pending.contains fieldPath then
    let remaining := a.pending.filter (fun q => !(q == fieldPath))
    { a with
        pending := remaining
        chunks := a.chunks ++ [c]
        phase := if remaining.isEmpty then StreamPhase.completed else a.phase
        transportClosed := remaining.isEmpty }
  else a

/-- Modelled from the spec: the abort action of the missing abort/timeout
governor — force-settle every still-pending field as rejected with the
`Aborted` error, reach `Completed`, and close the transport. Outside the
streaming phase the abort is a no-op, which also makes it idempotent. -/
def abortPending (a : Assembler) : Assembler :=
  if a.phase = StreamPhase.streaming then
    { phase := StreamPhase.completed
      pending := []
      chunks := a.chunks ++ a.pending.map (fun p => Chunk.rejectedValue p ChunkErr.aborted)
      transportClosed := true }
  else a

/-- One step of the governed stream: settlements emit chunks; once the
clock reaches the configured delay, the governor aborts the assembler. -/
def streamStep (s : StreamRun) (ev : StreamEvent) : StreamRun :=
  match ev with
  | .settleResolved p v =>
    { s with asm := settleField s.asm p (Chunk.resolvedValue p v) }
  | .settleRejected p m =>
    { s with asm := settleField s.asm p (Chunk.rejectedValue p (ChunkErr.appError m)) }
  | .clockAdvance t =>
    let now := s.elapsed + t
    if s.delay ≤ now then { s with elapsed := now, asm := abortPending s.asm }
    else { s with elapsed := now }

/-!
Concrete data used by counterexamples and witnesses.
-/

/-- The normalization of the query parameter list as the claim about URL
normalization words it: a pure filter that removes every `_data` parameter
and every `index` parameter with empty value, leaving everything else in
place. -/
def claimedNormalizeParams (ps : List (String × String)) : List (String × String) :=
  ps.filter (fun p => !(p.1 == "_data") && !(p.1 == "index" && p.2 == ""))

/-- The whole-request form of `claimedNormalizeParams`. -/
def claimedNormalizeRequest (request : Request) : Request :=
  { request with
      url := { request.url with
        searchParams := claimedNormalizeParams request.url.searchParams } }

/-- A request whose query holds a kept `index` parameter before another
parameter: `/a?index=a&foo=1`. -/
def exReq : Request :=
  ⟨"GET", ⟨"http://localhost", "/a", [("index", "a"), ("foo", "1")]⟩, ⟨[]⟩, ""⟩

/-- A request carrying both internal parameters: `/w?_data=routes/w&index`. -/
def wReq : Request :=
  ⟨"POST", ⟨"http://localhost", "/w", [("_data", "routes/w"), ("index", "")]⟩, ⟨[]⟩, "k=v"⟩

/-- A concrete load context. -/
def wCtx : AppLoadContext := ⟨[("env", "test")]⟩

/-- Concrete route params. -/
def wParams : Params := [("id", "7")]

/-- A concrete non-redirect response, as a handler might throw. -/
def wCaught : Response := ⟨400, "Bad Request", ⟨[("X-Reason", "invalid")]⟩, "bad"⟩

/-- A concrete redirect response. -/
def wRedirect : Response := ⟨302, "Found", ⟨[("Location", "/login")]⟩, ""⟩

/-- A concrete successful response result. -/
def wOkResp : Response := ⟨200, "OK", ⟨[("Content-Type", "text/plain")]⟩, "hello"⟩

/-- A concrete response whose content type is JSON. -/
def wJsonResp : Response :=
  ⟨200, "OK", ⟨[("Content-Type", "application/json; charset=utf-8")]⟩, "[1]"⟩

/-- A concrete streaming run: two fields still pending, shell emitted,
delay 50 with 40 elapsed. -/
def wRun : StreamRun :=
  ⟨50, 40, ⟨StreamPhase.streaming, ["a", "b"], [Chunk.initialShell], false⟩⟩

/-- Concrete handler throwing the non-redirect response `wCaught`. -/
def wThrowCaught : ActionFunction := fun _ => Except.error (Thrown.response wCaught)

/-- Concrete handler throwing the redirect response `wRedirect`. -/
def wThrowRedirect : ActionFunction := fun _ => Except.error (Thrown.response wRedirect)

/-- Concrete handler returning the response `wOkResp`. -/
def wReturnResp : ActionFunction := fun _ => Except.ok (DataFunctionResult.response wOkResp)

/-- Concrete handler returning plain data. -/
def wReturnData : ActionFunction := fun _ => Except.ok (DataFunctionResult.data "42")

/-- Concrete handler resolving to `undefined`. -/
def wReturnUndef : ActionFunction := fun _ => Except.ok DataFunctionResult.undefinedValue

/-!
Shared lemmas.
-/

/-- In a filtered-out list followed by the new entry, the new entry is the
first one matching its own name. -/
theorem find_after_filterOut (l : List (String × String)) (n v : String) :
    ((l.filter (fun e => !headerNameMatches e.1 n) ++ [(n, v)]).find?
      (fun e => headerNameMatches e.1 n)) = some (n, v) := by
  induction l with
  | nil => simp [List.find?, headerNameMatches]
  | cons a t ih =>
    by_cases hm : headerNameMatches a.1 n
    · simpa [List.filter_cons, hm] using ih
    · simpa [List.filter_cons, hm, List.find?_cons, hm] using ih

/-- Setting a header makes it readable back. -/
theorem headersGetSet (h : HeadersMap) (n v : String) :
    (h.set n v).get n = some v := by
  show ((h.entries.filter (fun e => !headerNameMatches e.1 n) ++ [(n, v)]).find?
      (fun e => headerNameMatches e.1 n)).map (fun e => e.2) = some v
  rw [find_after_filterOut]
  rfl

/-- The re-appended `index` parameters are exactly the non-empty-valued
`index` parameters, in their original relative order. -/
theorem stripIndexKept (ps : List (String × String)) :
    ((((ps.filter (fun p => p.1 == "index")).map (fun p => p.2)).filter
        (fun v => !(v == ""))).map (fun v => (("index" : String), v)))
      = (ps.filter (fun p => p.1 == "index" && !(p.2 == ""))).map
          (fun p => (("index" : String), p.2)) := by
  induction ps with
  | nil => rfl
  | cons a t ih =>
    by_cases h1 : a.1 = "index"
    · by_cases h2 : a.2 = ""
      · simp [List.filter_cons, h1, h2, ih]
      · simp [List.filter_cons, h1, h2, ih]
    · simp [List.filter_cons, h1, ih]

/-- Characterization of the normalized query: the non-internal parameters in
order, followed by the kept `index` parameters in order. -/
theorem normalizedParams_eq (request : Request) :
    (stripDataParam (stripIndexParam request)).url.searchParams
      = request.url.searchParams.filter
          (fun p => !(p.1 == "_data") && !(p.1 == "index"))
        ++ (request.url.searchParams.filter (fun p => p.1 == "index" && !(p.2 == ""))).map
            (fun p => (("index" : String), p.2)) := by
  show ((request.url.searchParams.filter (fun p => !(p.1 == "index"))
      ++ (((request.url.searchParams.filter (fun p => p.1 == "index")).map (fun p => p.2)).filter
            (fun v => !(v == ""))).map (fun v => (("index" : String), v))).filter
        (fun p => !(p.1 == "_data"))) = _
  rw [List.filter_append, List.filter_filter, stripIndexKept]
  congr 1
  rw [List.filter_eq_self]
  intro a ha
  simp only [List.mem_map] at ha
  obtain ⟨q, hq, rfl⟩ := ha
  simp

/-- Normalization never touches method, headers, body, origin or pathname. -/
theorem normalizedRequest_frame (request : Request) :
    (stripDataParam (stripIndexParam request)).method = request.method
    ∧ (stripDataParam (stripIndexParam request)).headers = request.headers
    ∧ (stripDataParam (stripIndexParam request)).body = request.body
    ∧ (stripDataParam (stripIndexParam request)).url.origin = request.url.origin
    ∧ (stripDataParam (stripIndexParam request)).url.pathname = request.url.pathname := by
  exact ⟨rfl, rfl, rfl, rfl, rfl⟩

/-!
Claim theorems.
-/

/-- C1: when a handler throws a structured response that is not a redirect,
both `callRouteAction` and `callRouteLoader` set the `X-Remix-Catch` header
to `yes` on it, and then: with `isRemixRouterRequest` true the tagged
response is re-thrown; with it false the tagged response is returned as the
result — so the mode choice depends only on that flag. -/
theorem caughtResponseTagging (routeId : String) (f : ActionFunction)
    (params : Params) (loadContext : AppLoadContext) (request : Request) (r : Response)
    (hthrow : f (dataFunctionArgs request loadContext params)
      = Except.error (Thrown.response r))
    (hnr : isRedirectResponse r = false) :
    (tagResponse r).headers.get "X-Remix-Catch" = some "yes"
    ∧ callRouteAction routeId (some f) params loadContext request true
        = Except.error (Thrown.response (tagResponse r))
    ∧ callRouteAction routeId (some f) params loadContext request false
        = Except.ok (tagResponse r)
    ∧ callRouteLoader routeId (some f) params loadContext request true
        = Except.error (Thrown.response (tagResponse r))
    ∧ callRouteLoader routeId (some f) params loadContext request false
        = Except.ok (tagResponse r) := by
  refine ⟨headersGetSet r.headers "X-Remix-Catch" "yes", ?_, ?_, ?_, ?_⟩ <;>
    simp [callRouteAction, callRouteLoader, catchResponseShim, finalizeResult, hthrow, hnr]

/-- Witness for C1 at a concrete 400 response thrown by a concrete handler. -/
theorem caughtResponseTagging_witness :
    wThrowCaught (dataFunctionArgs wReq wCtx wParams)
        = Except.error (Thrown.response wCaught)
    ∧ isRedirectResponse wCaught = false
    ∧ ((tagResponse wCaught).headers.get "X-Remix-Catch" = some "yes"
        ∧ callRouteAction "routes/w" (some wThrowCaught) wParams wCtx wReq true
            = Except.error (Thrown.response (tagResponse wCaught))
        ∧ callRouteAction "routes/w" (some wThrowCaught) wParams wCtx wReq false
            = Except.ok (tagResponse wCaught)
        ∧ callRouteLoader "routes/w" (some wThrowCaught) wParams wCtx wReq true
            = Except.error (Thrown.response (tagResponse wCaught))
        ∧ callRouteLoader "routes/w" (some wThrowCaught) wParams wCtx wReq false
            = Except.ok (tagResponse wCaught)) :=
  ⟨rfl, rfl,
    caughtResponseTagging "routes/w" wThrowCaught wParams wCtx wReq wCaught rfl rfl⟩

/-- C2: a thrown redirect response is never tagged and never re-thrown: in
either mode it is returned unchanged as the successful result. -/
theorem redirectPassthrough (routeId : String) (f : ActionFunction)
    (params : Params) (loadContext : AppLoadContext) (request : Request)
    (r : Response) (b : Bool)
    (hthrow : f (dataFunctionArgs request loadContext params)
      = Except.error (Thrown.response r))
    (hred : isRedirectResponse r = true) :
    callRouteAction routeId (some f) params loadContext request b = Except.ok r
    ∧ callRouteLoader routeId (some f) params loadContext request b = Except.ok r := by
  constructor <;>
    simp [callRouteAction, callRouteLoader, catchResponseShim, finalizeResult, hthrow, hred]

/-- Witness for C2 at a concrete 302 redirect. -/
theorem redirectPassthrough_witness :
    wThrowRedirect (dataFunctionArgs wReq wCtx wParams)
        = Except.error (Thrown.response wRedirect)
    ∧ isRedirectResponse wRedirect = true
    ∧ (callRouteAction "routes/w" (some wThrowRedirect) wParams wCtx wReq true
          = Except.ok wRedirect
        ∧ callRouteLoader "routes/w" (some wThrowRedirect) wParams wCtx wReq true
          = Except.ok wRedirect) :=
  ⟨rfl, rfl,
    redirectPassthrough "routes/w" wThrowRedirect wParams wCtx wReq wRedirect true rfl rfl⟩

/-- C3: with no handler registered, both call functions fail with a 405
Method Not Allowed error whose message names the request method, the request
pathname and the route id. -/
theorem missingHandler405 (routeId : String) (params : Params)
    (loadContext : AppLoadContext) (request : Request) (b : Bool) :
    callRouteAction routeId none params loadContext request b
      = Except.error (Thrown.errorResponse ⟨405, "Method Not Allowed",
          methodNotAllowedActionMsg request.method request.url.pathname routeId, true⟩)
    ∧ callRouteLoader routeId none params loadContext request b
      = Except.error (Thrown.errorResponse ⟨405, "Method Not Allowed",
          methodNotAllowedLoaderMsg request.method request.url.pathname routeId, true⟩)
    ∧ occursIn request.method
        (methodNotAllowedActionMsg request.method request.url.pathname routeId)
    ∧ occursIn request.url.pathname
        (methodNotAllowedActionMsg request.method request.url.pathname routeId)
    ∧ occursIn routeId
        (methodNotAllowedActionMsg request.method request.url.pathname routeId)
    ∧ occursIn request.method
        (methodNotAllowedLoaderMsg request.method request.url.pathname routeId)
    ∧ occursIn request.url.pathname
        (methodNotAllowedLoaderMsg request.method request.url.pathname routeId)
    ∧ occursIn routeId
        (methodNotAllowedLoaderMsg request.method request.url.pathname routeId) := by
  refine ⟨rfl, rfl, ?_, ?_, ?_, ?_, ?_, ?_⟩
  · exact ⟨"You made a ",
      " request to \"" ++ request.url.pathname ++ "\" but did not provide " ++ "an `" ++
        "action" ++ "` for route \"" ++ routeId ++
        "\", so there is no way to handle the request.",
      by simp [methodNotAllowedActionMsg, String.append_assoc]⟩
  · exact ⟨"You made a " ++ request.method ++ " request to \"",
      "\" but did not provide " ++ "an `" ++ "action" ++ "` for route \"" ++ routeId ++
        "\", so there is no way to handle the request.",
      by simp [methodNotAllowedActionMsg, String.append_assoc]⟩
  · exact ⟨"You made a " ++ request.method ++ " request to \"" ++ request.url.pathname ++
        "\" but did not provide " ++ "an `" ++ "action" ++ "` for route \"",
      "\", so there is no way to handle the request.",
      by simp [methodNotAllowedActionMsg, String.append_assoc]⟩
  · exact ⟨"You made a ",
      " request to \"" ++ request.url.pathname ++ "\" but did not provide " ++ "a `" ++
        "loader" ++ "` for route \"" ++ routeId ++
        "\", so there is no way to handle the request.",
      by simp [methodNotAllowedLoaderMsg, String.append_assoc]⟩
  · exact ⟨"You made a " ++ request.method ++ " request to \"",
      "\" but did not provide " ++ "a `" ++ "loader" ++ "` for route \"" ++ routeId ++
        "\", so there is no way to handle the request.",
      by simp [methodNotAllowedLoaderMsg, String.append_assoc]⟩
  · exact ⟨"You made a " ++ request.method ++ " request to \"" ++ request.url.pathname ++
        "\" but did not provide " ++ "a `" ++ "loader" ++ "` for route \"",
      "\", so there is no way to handle the request.",
      by simp [methodNotAllowedLoaderMsg, String.append_assoc]⟩

/-- C4: a handler resolving to `undefined` makes all four call functions
fail with an error whose message names the route id and the handler kind. -/
theorem undefinedHandlerRejected (routeId : String) (f : ActionFunction)
    (params : Params) (loadContext : AppLoadContext) (request : Request) (b : Bool)
    (hundef : f (dataFunctionArgs request loadContext params)
      = Except.ok DataFunctionResult.undefinedValue) :
    callRouteAction routeId (some f) params loadContext request b
        = Except.error (Thrown.jsError (undefinedActionMsg routeId))
    ∧ callRouteLoader routeId (some f) params loadContext request b
        = Except.error (Thrown.jsError (undefinedLoaderMsg routeId))
    ∧ callRouteActionRR routeId f params loadContext request
        = Except.error (Thrown.jsError (undefinedActionMsg routeId))
    ∧ callRouteLoaderRR routeId f params loadContext request
        = Except.error (Thrown.jsError (undefinedLoaderMsg routeId))
    ∧ occursIn routeId (undefinedActionMsg routeId)
    ∧ occursIn "action" (undefinedActionMsg routeId)
    ∧ occursIn routeId (undefinedLoaderMsg routeId)
    ∧ occursIn "loader" (undefinedLoaderMsg routeId) := by
  refine ⟨?_, ?_, ?_, ?_, ?_, ?_, ?_, ?_⟩
  · simp [callRouteAction, catchResponseShim, finalizeResult, hundef]
  · simp [callRouteLoader, catchResponseShim, finalizeResult, hundef]
  · simp [callRouteActionRR, finalizeResult, hundef]
  · simp [callRouteLoaderRR, finalizeResult, hundef]
  · exact ⟨"You defined an " ++ "action" ++ " for route \"",
      "\" but didn\x27t return " ++ "anything from your `" ++ "action" ++
        "` function. Please return a value or `null`.",
      by unfold undefinedActionMsg; repeat rw [String.append_assoc]⟩
  · exact ⟨"You defined an ",
      " for route \"" ++ routeId ++ "\" but didn\x27t return " ++
        "anything from your `" ++ "action" ++ "` function. Please return a value or `null`.",
      by unfold undefinedActionMsg; repeat rw [String.append_assoc]⟩
  · exact ⟨"You defined a " ++ "loader" ++ " for route \"",
      "\" but didn\x27t return " ++ "anything from your `" ++ "loader" ++
        "` function. Please return a value or `null`.",
      by unfold undefinedLoaderMsg; repeat rw [String.append_assoc]⟩
  · exact ⟨"You defined a ",
      " for route \"" ++ routeId ++ "\" but didn\x27t return " ++
        "anything from your `" ++ "loader" ++ "` function. Please return a value or `null`.",
      by unfold undefinedLoaderMsg; repeat rw [String.append_assoc]⟩

/-- Witness for C4 at a concrete handler resolving to `undefined`. -/
theorem undefinedHandlerRejected_witness :
    wReturnUndef (dataFunctionArgs wReq wCtx wParams)
        = Except.ok DataFunctionResult.undefinedValue
    ∧ (callRouteAction "routes/w" (some wReturnUndef) wParams wCtx wReq true
          = Except.error (Thrown.jsError (undefinedActionMsg "routes/w"))
        ∧ callRouteLoader "routes/w" (some wReturnUndef) wParams wCtx wReq true
          = Except.error (Thrown.jsError (undefinedLoaderMsg "routes/w"))
        ∧ callRouteActionRR "routes/w" wReturnUndef wParams wCtx wReq
          = Except.error (Thrown.jsError (undefinedActionMsg "routes/w"))
        ∧ callRouteLoaderRR "routes/w" wReturnUndef wParams wCtx wReq
          = Except.error (Thrown.jsError (undefinedLoaderMsg "routes/w"))
        ∧ occursIn "routes/w" (undefinedActionMsg "routes/w")
        ∧ occursIn "action" (undefinedActionMsg "routes/w")
        ∧ occursIn "routes/w" (undefinedLoaderMsg "routes/w")
        ∧ occursIn "loader" (undefinedLoaderMsg "routes/w")) :=
  ⟨rfl, undefinedHandlerRejected "routes/w" wReturnUndef wParams wCtx wReq true rfl⟩

/-- C5: a successful defined result passes through unchanged when it is a
response, and is wrapped by `json` otherwise, in all four call functions. -/
theorem successfulResultConversion (routeId : String) (f g : ActionFunction)
    (params : Params) (loadContext : AppLoadContext) (request : Request)
    (r : Response) (d : AppData) (b : Bool)
    (hf : f (dataFunctionArgs request loadContext params)
      = Except.ok (DataFunctionResult.response r))
    (hg : g (dataFunctionArgs request loadContext params)
      = Except.ok (DataFunctionResult.data d)) :
    callRouteAction routeId (some f) params loadContext request b = Except.ok r
    ∧ callRouteLoader routeId (some f) params loadContext request b = Except.ok r
    ∧ callRouteActionRR routeId f params loadContext request = Except.ok r
    ∧ callRouteLoaderRR routeId f params loadContext request = Except.ok r
    ∧ callRouteAction routeId (some g) params loadContext request b = Except.ok (json d)
    ∧ callRouteLoader routeId (some g) params loadContext request b = Except.ok (json d)
    ∧ callRouteActionRR routeId g params loadContext request = Except.ok (json d)
    ∧ callRouteLoaderRR routeId g params loadContext request = Except.ok (json d) := by
  refine ⟨?_, ?_, ?_, ?_, ?_, ?_, ?_, ?_⟩ <;>
    simp [callRouteAction, callRouteLoader, callRouteActionRR, callRouteLoaderRR,
      catchResponseShim, finalizeResult, hf, hg]

/-- Witness for C5 with one handler returning a response and one returning
plain data. -/
theorem successfulResultConversion_witness :
    wReturnResp (dataFunctionArgs wReq wCtx wParams)
        = Except.ok (DataFunctionResult.response wOkResp)
    ∧ wReturnData (dataFunctionArgs wReq wCtx wParams)
        = Except.ok (DataFunctionResult.data "42")
    ∧ (callRouteAction "routes/w" (some wReturnResp) wParams wCtx wReq false
          = Except.ok wOkResp
        ∧ callRouteLoader "routes/w" (some wReturnResp) wParams wCtx wReq false
          = Except.ok wOkResp
        ∧ callRouteActionRR "routes/w" wReturnResp wParams wCtx wReq = Except.ok wOkResp
        ∧ callRouteLoaderRR "routes/w" wReturnResp wParams wCtx wReq = Except.ok wOkResp
        ∧ callRouteAction "routes/w" (some wReturnData) wParams wCtx wReq false
          = Except.ok (json "42")
        ∧ callRouteLoader "routes/w" (some wReturnData) wParams wCtx wReq false
          = Except.ok (json "42")
        ∧ callRouteActionRR "routes/w" wReturnData wParams wCtx wReq = Except.ok (json "42")
        ∧ callRouteLoaderRR "routes/w" wReturnData wParams wCtx wReq = Except.ok (json "42")) :=
  ⟨rfl, rfl,
    successfulResultConversion "routes/w" wReturnResp wReturnData wParams wCtx wReq
      wOkResp "42" false rfl rfl⟩

/-- C6: every call site hands the handler the argument object built from the
normalized request — whose query no longer holds any internal parameter —
together with the caller-supplied context and the path parameters. -/
theorem handlerSeesNormalizedRequest (request : Request) (loadContext : AppLoadContext)
    (params : Params) (routeId : String) (f : ActionFunction) (b : Bool) :
    (∀ p ∈ (dataFunctionArgs request loadContext params).request.url.searchParams,
        p.1 ≠ "_data" ∧ (p.1 = "index" → p.2 ≠ ""))
    ∧ (dataFunctionArgs request loadContext params).context = loadContext
    ∧ (dataFunctionArgs request loadContext params).params = params
    ∧ (dataFunctionArgs request loadContext params).request
        = stripDataParam (stripIndexParam request)
    ∧ callRouteAction routeId (some f) params loadContext request b
        = finalizeResult (undefinedActionMsg routeId)
            (catchResponseShim b (f (dataFunctionArgs request loadContext params)))
    ∧ callRouteLoader routeId (some f) params loadContext request b
        = finalizeResult (undefinedLoaderMsg routeId)
            (catchResponseShim b (f (dataFunctionArgs request loadContext params)))
    ∧ callRouteActionRR routeId f params loadContext request
        = finalizeResult (undefinedActionMsg routeId)
            (f (dataFunctionArgs request loadContext params))
    ∧ callRouteLoaderRR routeId f params loadContext request
        = finalizeResult (undefinedLoaderMsg routeId)
            (f (dataFunctionArgs request loadContext params)) := by
  refine ⟨?_, rfl, rfl, rfl, rfl, rfl, rfl, rfl⟩
  intro p hp
  have hp' : p ∈ (stripDataParam (stripIndexParam request)).url.searchParams := hp
  rw [normalizedParams_eq] at hp'
  rcases List.mem_append.mp hp' with hA | hB
  · have hpred := (List.mem_filter.mp hA).2
    simp only [Bool.and_eq_true, Bool.not_eq_true', beq_eq_false_iff_ne] at hpred
    exact ⟨hpred.1, fun h => absurd h hpred.2⟩
  · simp only [List.mem_map] at hB
    obtain ⟨q, hq, rfl⟩ := hB
    have hpred := (List.mem_filter.mp hq).2
    simp only [Bool.and_eq_true, Bool.not_eq_true', beq_eq_false_iff_ne, beq_iff_eq] at hpred
    exact ⟨by simp, fun _ => hpred.2⟩

/-- Witness for C6 at a concrete request carrying both internal params. -/
theorem handlerSeesNormalizedRequest_witness :
    (dataFunctionArgs wReq wCtx wParams).context = wCtx
    ∧ (dataFunctionArgs wReq wCtx wParams).params = wParams
    ∧ (dataFunctionArgs wReq wCtx wParams).request.url.searchParams = [] :=
  ⟨(handlerSeesNormalizedRequest wReq wCtx wParams "routes/w" wReturnData true).2.1,
    (handlerSeesNormalizedRequest wReq wCtx wParams "routes/w" wReturnData true).2.2.1,
    by decide⟩

/-- C7: `extractData` follows the content type — it hands the body to the
JSON parser exactly when the `Content-Type` header holds the token
`application/json`, and returns the raw text otherwise (including when the
header is absent). -/
theorem extractDataContentType (resp : Response) :
    (∀ ct, resp.headers.get "Content-Type" = some ct →
      ((containsJsonToken ct = true → extractData resp = ExtractedData.jsonBody resp.body)
        ∧ (containsJsonToken ct = false →
            extractData resp = ExtractedData.textBody resp.body)))
    ∧ (resp.headers.get "Content-Type" = none →
        extractData resp = ExtractedData.textBody resp.body) := by
  constructor
  · intro ct hct
    constructor
    · intro hj
      have hne : (ct == "") = false := by
        rcases hc : ct == "" with _ | _
        · rfl
        · exfalso
          have hceq : ct = "" := by simpa using hc
          rw [hceq] at hj
          exact absurd hj (by decide)
      simp [extractData, hct, hne, hj]
    · intro hj
      simp [extractData, hct, hj]
  · intro hnone
    simp [extractData, hnone]

/-- Witness for C7 at a concrete JSON response. -/
theorem extractDataContentType_witness :
    wJsonResp.headers.get "Content-Type" = some "application/json; charset=utf-8"
    ∧ containsJsonToken "application/json; charset=utf-8" = true
    ∧ extractData wJsonResp = ExtractedData.jsonBody wJsonResp.body :=
  ⟨by decide, by decide,
    ((extractDataContentType wJsonResp).1 "application/json; charset=utf-8"
      (by decide)).1 (by decide)⟩

/-- C8: when the configured delay expires with fields still pending, the
governor force-settles every pending field as rejected with the
distinguished `Aborted` error — one rejected chunk per field — and the
stream reaches `Completed` with the transport closed, in that very step. -/
theorem abortGovernorCompletes (s : StreamRun) (t : Nat)
    (hphase : s.asm.phase = StreamPhase.streaming)
    (hexp : s.delay ≤ s.elapsed + t) :
    (streamStep s (StreamEvent.clockAdvance t)).asm.phase = StreamPhase.completed
    ∧ (streamStep s (StreamEvent.clockAdvance t)).asm.pending = []
    ∧ (streamStep s (StreamEvent.clockAdvance t)).asm.transportClosed = true
    ∧ (streamStep s (StreamEvent.clockAdvance t)).asm.chunks
        = s.asm.chunks ++ s.asm.pending.map (fun p => Chunk.rejectedValue p ChunkErr.aborted)
    ∧ ((streamStep s (StreamEvent.clockAdvance t)).asm.chunks).length
        = s.asm.chunks.length + s.asm.pending.length := by
  have hstep : streamStep s (StreamEvent.clockAdvance t)
      = { s with elapsed := s.elapsed + t, asm := abortPending s.asm } := by
    simp [streamStep, hexp]
  rw [hstep]
  simp [abortPending, hphase]

/-- Witness for C8: a run with two pending fields, delay 50, 40 elapsed,
advanced by 15 ticks. -/
theorem abortGovernorCompletes_witness :
    wRun.asm.phase = StreamPhase.streaming
    ∧ wRun.delay ≤ wRun.elapsed + 15
    ∧ ((streamStep wRun (StreamEvent.clockAdvance 15)).asm.phase = StreamPhase.completed
        ∧ (streamStep wRun (StreamEvent.clockAdvance 15)).asm.pending = []
        ∧ (streamStep wRun (StreamEvent.clockAdvance 15)).asm.transportClosed = true
        ∧ (streamStep wRun (StreamEvent.clockAdvance 15)).asm.chunks
            = wRun.asm.chunks
              ++ wRun.asm.pending.map (fun p => Chunk.rejectedValue p ChunkErr.aborted)
        ∧ ((streamStep wRun (StreamEvent.clockAdvance 15)).asm.chunks).length
            = wRun.asm.chunks.length + wRun.asm.pending.length) :=
  ⟨rfl, by decide, abortGovernorCompletes wRun 15 rfl (by decide)⟩

/-- C9 counterexample: on `/a?index=a&foo=1` the normalized request is not
the claimed order-preserving filter of the original query — the kept `index`
parameter is re-appended after `foo`. -/
theorem urlNormalization_counterexample :
    ¬ stripDataParam (stripIndexParam exReq) = claimedNormalizeRequest exReq := by
  decide

/-- C9 amended: the normalized query is the original parameters minus every
`_data` parameter and every `index` parameter, in their original relative
order, followed by the non-empty-valued `index` parameters, in their
original relative order, moved to the end; pathname, origin, method,
headers and body are unchanged. -/
theorem urlNormalization_amended (request : Request) :
    (stripDataParam (stripIndexParam request)).url.searchParams
      = request.url.searchParams.filter
          (fun p => !(p.1 == "_data") && !(p.1 == "index"))
        ++ (request.url.searchParams.filter (fun p => p.1 == "index" && !(p.2 == ""))).map
            (fun p => (("index" : String), p.2))
    ∧ (stripDataParam (stripIndexParam request)).url.pathname = request.url.pathname
    ∧ (stripDataParam (stripIndexParam request)).url.origin = request.url.origin
    ∧ (stripDataParam (stripIndexParam request)).method = request.method
    ∧ (stripDataParam (stripIndexParam request)).headers = request.headers
    ∧ (stripDataParam (stripIndexParam request)).body = request.body :=
  ⟨normalizedParams_eq request, rfl, rfl, rfl, rfl, rfl⟩

/-- C10: the RR entry points perform no catch — whatever a handler throws,
response or not, redirect or not, propagates unchanged to the caller. -/
theorem rrNoCatch (routeId : String) (f : ActionFunction) (params : Params)
    (loadContext : AppLoadContext) (request : Request) (e : Thrown)
    (hthrow : f (dataFunctionArgs request loadContext params) = Except.error e) :
    callRouteActionRR routeId f params loadContext request = Except.error e
    ∧ callRouteLoaderRR routeId f params loadContext request = Except.error e := by
  constructor <;> simp [callRouteActionRR, callRouteLoaderRR, finalizeResult, hthrow]

/-- Witness for C10: a thrown redirect response propagates as thrown from
the RR entry points. -/
theorem rrNoCatch_witness :
    wThrowRedirect (dataFunctionArgs wReq wCtx wParams)
        = Except.error (Thrown.response wRedirect)
    ∧ (callRouteActionRR "routes/w" wThrowRedirect wParams wCtx wReq
          = Except.error (Thrown.response wRedirect)
        ∧ callRouteLoaderRR "routes/w" wThrowRedirect wParams wCtx wReq
          = Except.error (Thrown.response wRedirect)) :=
  ⟨rfl, rrNoCatch "routes/w" wThrowRedirect wParams wCtx wReq (Thrown.response wRedirect) rfl⟩
